import Mathlib

/-!
Shallow embedding of `vcpkg_caching.py`, a one-shot provisioning script that
validates environment variables, optionally bootstraps vcpkg, fetches a NuGet
client through vcpkg, registers NuGet feed credentials, and prints shell
`export` statements.

The outside world (environment variables, platform, filesystem, external
command exit codes and output) is modelled by a `World` record.  Running the
script produces a `RunResult`: an ordered trace of observable events
(external command invocations, stdout lines, stderr lines) together with how
the process terminated (normal fall-through, `exit(1)` via the `fail`
routine, or an uncaught Python exception, which also ends the process with a
non-zero status but prints no shell statement).
-/

namespace VcpkgCaching

/-- An observable event of a run: an external command invocation
(`subprocess.run` / `check_call` / `check_output`), a line printed to
standard output, or a line printed to standard error. -/
inductive Event where
  | runCmd (cmd : List String)
  | outLine (s : String)
  | errLine (s : String)
deriving DecidableEq, Repr

/-- How the process terminated: falling off the end of `main` (exit status
0), the `fail` routine's `exit(1)`, or an uncaught Python exception named by
its class (`CalledProcessError` from `check_call`/`check_output`,
`IndexError` from `[-1]` on an empty list); an uncaught exception also ends
the process with a non-zero status. -/
inductive Term where
  | normal
  | failExit
  | uncaught (exc : String)
deriving DecidableEq, Repr

/-- The outcome of a run: the ordered event trace and the termination kind. -/
structure RunResult where
  trace : List Event
  term : Term
deriving DecidableEq, Repr

/-- The process exit status: 0 for normal termination, 1 for `exit(1)` in
`fail` and 1 for an uncaught exception (Python's interpreter exit). -/
def exitCode (r : RunResult) : Nat :=
  match r.term with
  | .normal => 0
  | _ => 1

/-- The outside world as the script observes it: the process environment
(`os.environ`, no duplicate keys in use), whether `sys.platform == "win32"`,
whether `shutil.which("mono")` resolves, which paths exist on disk, the exit
status of each external command (keyed by its argv list), and the standard
output captured from the `vcpkg fetch nuget` call. -/
structure World where
  env : List (String × String)
  isWin : Bool
  whichMono : Bool
  pathExists : String → Bool
  cmdExit : List String → Nat
  fetchOutput : String

/-- Embedding of `os.environ.get k`: `none` when the variable is absent. -/
def envGet (w : World) (k : String) : Option String :=
  (w.env.find? (fun p => p.1 == k)).map Prod.snd

/-- Embedding of `os.environ.get k d`: lookup with default. -/
def envGetD (w : World) (k d : String) : String :=
  (envGet w k).getD d

/-- Embedding of `k in os.environ`: presence test. -/
def envMem (w : World) (k : String) : Bool :=
  (envGet w k).isSome

/-- Embedding of `str(Path(s))`: `pathlib` renders the empty path as `"."`;
other strings are kept as given (the inputs we consider carry no trailing
separators). -/
def pathOfString (s : String) : String :=
  if s = "" then "." else s

/-- Embedding of `Path(root) / child`: `pathlib` drops a `"."` root;
otherwise the platform separator is inserted. -/
def pathJoin (w : World) (root child : String) : String :=
  if root = "." then child
  else root ++ (if w.isWin then "\\" else "/") ++ child

/-- Path `vcpkg_root / ("vcpkg" + exe_suffix)` of line 55. -/
def vcpkgExePath (w : World) (root : String) : String :=
  pathJoin w root ("vcpkg" ++ (if w.isWin then ".exe" else ""))

/-- Path `vcpkg_root / ("bootstrap-vcpkg" + script_suffix)` of line 57. -/
def bootstrapPath (w : World) (root : String) : String :=
  pathJoin w root ("bootstrap-vcpkg" ++ (if w.isWin then ".bat" else ".sh"))

/-- The `fail` routine (lines 10-24): print the message to stderr, print
`exit 1` when the `CI` variable is present (else `return 1`) to stdout, then
`exit(1)`. -/
def pyFail (ci : Bool) (msg : String) : RunResult :=
  { trace := [Event.errLine msg,
              Event.outLine (if ci then "exit 1" else "return 1")],
    term := Term.failExit }

/-- Diagnostic of line 53. -/
def rootMissingMsg : String :=
  "Please set 'VCPKG_ROOT' environment variable to vcpkg root directory"

/-- Diagnostic of line 59. -/
def bootstrapMissingMsg (root : String) : String :=
  "VCPKG_ROOT (" ++ root ++ ") does not contain bootstrap script"

/-- Diagnostic of line 64. -/
def monoMissingMsg : String :=
  "Please install 'mono' .NET framework runtime"

/-- Diagnostic of line 76. -/
def userMissingMsg : String :=
  "Please set 'VCPKG_NUGET_USER' to your GitHub username"

/-- Diagnostic of lines 79-81. -/
def tokenMissingMsg : String :=
  "Please set 'VCPKG_NUGET_TOKEN' to your GitHub PAT with read/write package privileges"

/-- Diagnostic of lines 116-118. -/
def ownerMissingMsg : String :=
  "Please specify 'VCPKG_PRIMARY_NUGET_OWNER' to the primary GitHub owner from which to download pre-built binaries"

/-- Split a character list at every newline (the groups between the
separators, like Python `str.split` with a separator). -/
def splitNl (l : List Char) : List (List Char) :=
  l.foldr
    (fun ch acc =>
      if ch = '\n' then [] :: acc
      else
        match acc with
        | [] => [[ch]]
        | g :: gs => (ch :: g) :: gs)
    [[]]

/-- Embedding of `str.splitlines()` restricted to `\n` separators: the empty
string gives `[]`, and a trailing newline does not contribute an empty final
element. -/
def pySplitlines (s : String) : List String :=
  if s = "" then []
  else
    let parts := (splitNl s.toList).map (fun cs => String.mk cs)
    if parts.getLast? = some "" then parts.dropLast else parts

/-- Lines 46-53: resolve the vcpkg root.  If `VCPKG_ROOT` is present its
value is used (even when empty: `Path("")` is `"."`); otherwise the fallback
`VCPKG_INSTALLATION_ROOT` is copied into the export mapping and used;
otherwise `fail`.  Returns the initial export mapping and the root path. -/
def resolveRoot (w : World) : Except RunResult (List (String × String) × String) :=
  if envMem w "VCPKG_ROOT" then
    Except.ok ([], pathOfString (envGetD w "VCPKG_ROOT" ""))
  else if envMem w "VCPKG_INSTALLATION_ROOT" then
    let v := envGetD w "VCPKG_INSTALLATION_ROOT" ""
    Except.ok ([("VCPKG_ROOT", v)], pathOfString v)
  else
    Except.error (pyFail (envMem w "CI") rootMissingMsg)

/-- Lines 55-60: if the vcpkg executable is missing, locate the bootstrap
script (`fail` when absent) and `check_call` it (a non-zero exit raises an
uncaught `CalledProcessError`).  Returns the trace of the stage and the
executable path. -/
def ensureVcpkgExe (w : World) (root : String) :
    Except RunResult (List Event × String) :=
  let exe := vcpkgExePath w root
  if w.pathExists exe then
    Except.ok ([], exe)
  else
    let bootstrap := bootstrapPath w root
    if w.pathExists bootstrap then
      if w.cmdExit [bootstrap] = 0 then
        Except.ok ([Event.runCmd [bootstrap]], exe)
      else
        Except.error { trace := [Event.runCmd [bootstrap]],
                       term := Term.uncaught "CalledProcessError" }
    else
      Except.error (pyFail (envMem w "CI") (bootstrapMissingMsg root))

/-- Lines 62-67: on non-Windows, `fail` when `mono` is not on the search
path, else prefix subsequent NuGet invocations with `mono`. -/
def resolveMono (w : World) : Except RunResult (List String) :=
  if w.isWin = false ∧ w.whichMono = false then
    Except.error (pyFail (envMem w "CI") monoMissingMsg)
  else if w.isWin = false then
    Except.ok ["mono"]
  else
    Except.ok []

/-- The argv of the `vcpkg fetch nuget` call (lines 69-71). -/
def fetchCmd (exe : String) : List String :=
  [exe, "fetch", "nuget"]

/-- Lines 69-72: `check_output` of `vcpkg fetch nuget` (non-zero exit raises
`CalledProcessError`), then `.splitlines()[-1]` — an uncaught `IndexError`
when the output has no lines.  Returns the stage trace and the completed
NuGet invocation prefix. -/
def fetchNuget (w : World) (exe : String) (mono : List String) :
    Except RunResult (List Event × List String) :=
  let cmd := fetchCmd exe
  if w.cmdExit cmd = 0 then
    match (pySplitlines w.fetchOutput).getLast? with
    | some line => Except.ok ([Event.runCmd cmd], mono ++ [line])
    | none => Except.error { trace := [Event.runCmd cmd],
                             term := Term.uncaught "IndexError" }
  else
    Except.error { trace := [Event.runCmd cmd],
                   term := Term.uncaught "CalledProcessError" }

/-- Lines 74-81: read `VCPKG_NUGET_USER` and `VCPKG_NUGET_TOKEN`; a missing
or empty value (Python falsiness of `None` and `""`) is fatal via `fail`. -/
def getCreds (w : World) : Except RunResult (String × String) :=
  let u := envGetD w "VCPKG_NUGET_USER" ""
  if u = "" then
    Except.error (pyFail (envMem w "CI") userMissingMsg)
  else
    let t := envGetD w "VCPKG_NUGET_TOKEN" ""
    if t = "" then
      Except.error (pyFail (envMem w "CI") tokenMissingMsg)
    else
      Except.ok (u, t)

/-- Feed URL of lines 87 and 126: `https://nuget.pkg.github.com/` followed
by the owner and `/index.json`. -/
def nugetUrl (owner : String) : String :=
  "https://nuget.pkg.github.com/" ++ owner ++ "/index.json"

/-- The argv of a `sources add` invocation (lines 90-96, 128-134). -/
def addCmd (nuget : List String) (url name user pw : String) : List String :=
  nuget ++ ["sources", "add", "-source", url, "-storepasswordincleartext",
            "-name", name, "-username", user, "-password", pw]

/-- The argv of a `sources update` invocation (lines 97-103, 135-141). -/
def updateCmd (nuget : List String) (url name user pw : String) : List String :=
  nuget ++ ["sources", "update", "-source", url, "-storepasswordincleartext",
            "-name", name, "-username", user, "-password", pw]

/-- The argv of the `setapikey` invocation (lines 105-109). -/
def setApiKeyCmd (nuget : List String) (token url : String) : List String :=
  nuget ++ ["setapikey", token, "-source", url]

/-- The fixed binary-cache configuration value (lines 83-85). -/
def binarySourcesTemplate : String :=
  "clear;nuget,GitHub,readwrite;nugettimeout,3601"

/-- Lines 90-109: the three primary-feed NuGet invocations.  `sources add`
runs via `subprocess.run`, so its exit status is never consulted; `sources
update` and `setapikey` run via `check_call`, so a non-zero exit raises an
uncaught `CalledProcessError`. -/
def registerPrimary (w : World) (nuget : List String) (user token : String) :
    Except RunResult (List Event) :=
  let url := nugetUrl user
  let add := addCmd nuget url "GitHub" user token
  let upd := updateCmd nuget url "GitHub" user token
  let api := setApiKeyCmd nuget token url
  if w.cmdExit upd = 0 then
    if w.cmdExit api = 0 then
      Except.ok [Event.runCmd add, Event.runCmd upd, Event.runCmd api]
    else
      Except.error { trace := [Event.runCmd add, Event.runCmd upd, Event.runCmd api],
                     term := Term.uncaught "CalledProcessError" }
  else
    Except.error { trace := [Event.runCmd add, Event.runCmd upd],
                   term := Term.uncaught "CalledProcessError" }

/-- The informational stderr message of line 121-124. -/
def sameFeedMsg : String :=
  "Not using primary NuGet feed because it is same as 'GitHub' feed."

/-- Lines 112-141: the optional secondary (read-only) feed.  When
`VCPKG_PRIMARY_NUGET_TOKEN` is truthy, a missing or empty
`VCPKG_PRIMARY_NUGET_OWNER` is fatal via `fail`; an owner equal to the
username only logs a message; otherwise `sources add` (exit ignored) and
`sources update` (fatal) run for the secondary feed.  Returns the stage
trace and the owner when the read-only feed segment must be appended. -/
def registerSecondary (w : World) (nuget : List String) (user : String) :
    Except RunResult (List Event × Option String) :=
  let tok := envGetD w "VCPKG_PRIMARY_NUGET_TOKEN" ""
  if tok = "" then
    Except.ok ([], none)
  else
    let owner := envGetD w "VCPKG_PRIMARY_NUGET_OWNER" ""
    if owner = "" then
      Except.error (pyFail (envMem w "CI") ownerMissingMsg)
    else if owner = user then
      Except.ok ([Event.errLine sameFeedMsg], none)
    else
      let url := nugetUrl owner
      let add := addCmd nuget url owner user tok
      let upd := updateCmd nuget url owner user tok
      if w.cmdExit upd = 0 then
        Except.ok ([Event.runCmd add, Event.runCmd upd], some owner)
      else
        Except.error { trace := [Event.runCmd add, Event.runCmd upd],
                       term := Term.uncaught "CalledProcessError" }

/-- Assignment `d[k] = v` on an insertion-ordered mapping (Python 3.7+ `dict`): an
existing key keeps its position, a new key is appended. -/
def dictInsert (d : List (String × String)) (k v : String) :
    List (String × String) :=
  if d.any (fun p => p.1 == k) then
    d.map (fun p => if p.1 == k then (k, v) else p)
  else
    d ++ [(k, v)]

/-- Lookup `d[k]` with default (the script only reads a key it has written). -/
def dictGetD (d : List (String × String)) (k dflt : String) : String :=
  ((d.find? (fun p => p.1 == k)).map Prod.snd).getD dflt

/-- The shell assignment line for one export (lines 33-37). -/
def exportLine (isWin : Bool) (p : String × String) : String :=
  if isWin then "$env:" ++ p.1 ++ " = '" ++ p.2 ++ "'"
  else "export " ++ p.1 ++ "='" ++ p.2 ++ "'"

/-- Function `print_export_variables` of lines 27-37: one stdout line per entry, in
insertion order. -/
def printExportVariables (isWin : Bool) (exports : List (String × String)) :
    List Event :=
  exports.map (fun p => Event.outLine (exportLine isWin p))

/-- Prepend an already-produced trace to a terminal result. -/
def prependTrace (tr : List Event) (r : RunResult) : RunResult :=
  { r with trace := tr ++ r.trace }

/-- Function `main` of lines 40-147, assembled from the stages in source
order. -/
def pyMain (w : World) : RunResult :=
  match resolveRoot w with
  | .error r => r
  | .ok (exp0, root) =>
    match ensureVcpkgExe w root with
    | .error r => r
    | .ok (tr1, exe) =>
      match resolveMono w with
      | .error r => prependTrace tr1 r
      | .ok mono =>
        match fetchNuget w exe mono with
        | .error r => prependTrace tr1 r
        | .ok (tr2, nuget) =>
          match getCreds w with
          | .error r => prependTrace (tr1 ++ tr2) r
          | .ok (user, token) =>
            let exp1 := dictInsert exp0 "VCPKG_BINARY_SOURCES" binarySourcesTemplate
            match registerPrimary w nuget user token with
            | .error r => prependTrace (tr1 ++ tr2) r
            | .ok tr3 =>
              match registerSecondary w nuget user with
              | .error r => prependTrace (tr1 ++ tr2 ++ tr3) r
              | .ok (tr4, ownerOpt) =>
                let exp2 :=
                  match ownerOpt with
                  | some owner =>
                      dictInsert exp1 "VCPKG_BINARY_SOURCES"
                        (dictGetD exp1 "VCPKG_BINARY_SOURCES" ""
                          ++ ";nuget," ++ owner ++ ",read")
                  | none => exp1
                { trace := tr1 ++ tr2 ++ tr3 ++ tr4
                            ++ printExportVariables w.isWin exp2,
                  term := Term.normal }

/-- The stdout lines of a trace, in order. -/
def outLines (tr : List Event) : List String :=
  tr.filterMap (fun e => match e with | .outLine s => some s | _ => none)

/-- The stderr lines of a trace, in order. -/
def errLines (tr : List Event) : List String :=
  tr.filterMap (fun e => match e with | .errLine s => some s | _ => none)

/-- The external command invocations of a trace, in order. -/
def runCmds (tr : List Event) : List (List String) :=
  tr.filterMap (fun e => match e with | .runCmd c => some c | _ => none)

/-- Whether a trace contains the shell statement the `fail` routine prints. -/
def hasShellStmt (tr : List Event) : Bool :=
  tr.any (fun e => match e with
    | .outLine s => s == "exit 1" || s == "return 1"
    | _ => false)


/-- Substring test used to state that a diagnostic names a variable. -/
def strContains (hay needle : String) : Bool :=
  (List.range (hay.length + 1)).any
    (fun i => needle.toList.isPrefixOf (hay.toList.drop i))

@[simp] theorem outLines_nil : outLines [] = [] := rfl

@[simp] theorem outLines_cons_run (c : List String) (tr : List Event) :
    outLines (Event.runCmd c :: tr) = outLines tr := rfl

@[simp] theorem outLines_cons_out (s : String) (tr : List Event) :
    outLines (Event.outLine s :: tr) = s :: outLines tr := rfl

@[simp] theorem outLines_cons_err (s : String) (tr : List Event) :
    outLines (Event.errLine s :: tr) = outLines tr := rfl

@[simp] theorem outLines_append (t1 t2 : List Event) :
    outLines (t1 ++ t2) = outLines t1 ++ outLines t2 :=
  List.filterMap_append t1 t2 _

@[simp] theorem errLines_nil : errLines [] = [] := rfl

@[simp] theorem errLines_cons_run (c : List String) (tr : List Event) :
    errLines (Event.runCmd c :: tr) = errLines tr := rfl

@[simp] theorem errLines_cons_out (s : String) (tr : List Event) :
    errLines (Event.outLine s :: tr) = errLines tr := rfl

@[simp] theorem errLines_cons_err (s : String) (tr : List Event) :
    errLines (Event.errLine s :: tr) = s :: errLines tr := rfl

@[simp] theorem errLines_append (t1 t2 : List Event) :
    errLines (t1 ++ t2) = errLines t1 ++ errLines t2 :=
  List.filterMap_append t1 t2 _

@[simp] theorem runCmds_nil : runCmds [] = [] := rfl

@[simp] theorem runCmds_cons_run (c : List String) (tr : List Event) :
    runCmds (Event.runCmd c :: tr) = c :: runCmds tr := rfl

@[simp] theorem runCmds_cons_out (s : String) (tr : List Event) :
    runCmds (Event.outLine s :: tr) = runCmds tr := rfl

@[simp] theorem runCmds_cons_err (s : String) (tr : List Event) :
    runCmds (Event.errLine s :: tr) = runCmds tr := rfl

@[simp] theorem runCmds_append (t1 t2 : List Event) :
    runCmds (t1 ++ t2) = runCmds t1 ++ runCmds t2 :=
  List.filterMap_append t1 t2 _

@[simp] theorem hasShellStmt_nil : hasShellStmt [] = false := rfl

@[simp] theorem hasShellStmt_cons_run (c : List String) (tr : List Event) :
    hasShellStmt (Event.runCmd c :: tr) = hasShellStmt tr := by
  simp [hasShellStmt]

@[simp] theorem hasShellStmt_cons_err (s : String) (tr : List Event) :
    hasShellStmt (Event.errLine s :: tr) = hasShellStmt tr := by
  simp [hasShellStmt]

@[simp] theorem hasShellStmt_cons_out (s : String) (tr : List Event) :
    hasShellStmt (Event.outLine s :: tr)
      = ((s == "exit 1" || s == "return 1") || hasShellStmt tr) := by
  simp [hasShellStmt]

@[simp] theorem hasShellStmt_append (t1 t2 : List Event) :
    hasShellStmt (t1 ++ t2) = (hasShellStmt t1 || hasShellStmt t2) := by
  simp [hasShellStmt]

theorem hasShellStmt_eq_false_of_outLines_nil (tr : List Event)
    (h : outLines tr = []) : hasShellStmt tr = false := by
  induction tr with
  | nil => rfl
  | cons e t ih =>
    cases e with
    | runCmd c => simpa using ih (by simpa using h)
    | outLine s => simp at h
    | errLine s => simpa using ih (by simpa using h)

@[simp] theorem pyFail_term (ci : Bool) (m : String) :
    (pyFail ci m).term = Term.failExit := rfl

theorem pyFail_exitCode (ci : Bool) (m : String) :
    exitCode (pyFail ci m) = 1 := rfl

theorem pyFail_hasShellStmt (ci : Bool) (m : String) :
    hasShellStmt (pyFail ci m).trace = true := by
  cases ci <;> simp [pyFail]

theorem pyFail_errLines (ci : Bool) (m : String) :
    errLines (pyFail ci m).trace = [m] := by
  cases ci <;> simp [pyFail]

theorem pyFail_outLines (ci : Bool) (m : String) :
    outLines (pyFail ci m).trace = [if ci then "exit 1" else "return 1"] := by
  cases ci <;> simp [pyFail]

theorem pyFail_runCmds (ci : Bool) (m : String) :
    runCmds (pyFail ci m).trace = [] := by
  cases ci <;> simp [pyFail]

@[simp] theorem prependTrace_term (tr : List Event) (r : RunResult) :
    (prependTrace tr r).term = r.term := rfl

@[simp] theorem prependTrace_trace (tr : List Event) (r : RunResult) :
    (prependTrace tr r).trace = tr ++ r.trace := rfl

@[simp] theorem exitCode_failExit (r : RunResult) (h : r.term = Term.failExit) :
    exitCode r = 1 := by
  simp [exitCode, h]

theorem exitCode_uncaught (r : RunResult) (e : String)
    (h : r.term = Term.uncaught e) : exitCode r = 1 := by
  simp [exitCode, h]

theorem resolveRoot_error (w : World) (r : RunResult)
    (h : resolveRoot w = Except.error r) :
    ∃ m, r = pyFail (envMem w "CI") m := by
  unfold resolveRoot at h
  split at h
  · cases h
  · split at h
    · cases h
    · cases h
      exact ⟨_, rfl⟩

theorem resolveRoot_ok (w : World) (exp0 : List (String × String))
    (root : String) (h : resolveRoot w = Except.ok (exp0, root)) :
    exp0 = [] ∨ ∃ v, exp0 = [("VCPKG_ROOT", v)] := by
  unfold resolveRoot at h
  split at h
  · cases h
    exact Or.inl rfl
  · split at h
    · cases h
      exact Or.inr ⟨_, rfl⟩
    · cases h

theorem ensureVcpkgExe_error (w : World) (root : String) (r : RunResult)
    (h : ensureVcpkgExe w root = Except.error r) :
    (∃ m, r = pyFail (envMem w "CI") m) ∨
      r = { trace := [Event.runCmd [bootstrapPath w root]],
            term := Term.uncaught "CalledProcessError" } := by
  simp only [ensureVcpkgExe] at h
  split at h
  · cases h
  · split at h
    · split at h
      · cases h
      · cases h
        exact Or.inr rfl
    · cases h
      exact Or.inl ⟨_, rfl⟩

theorem ensureVcpkgExe_ok (w : World) (root : String) (tr : List Event)
    (exe : String) (h : ensureVcpkgExe w root = Except.ok (tr, exe)) :
    exe = vcpkgExePath w root ∧
      (tr = [] ∨ tr = [Event.runCmd [bootstrapPath w root]]) := by
  simp only [ensureVcpkgExe] at h
  split at h
  · cases h
    exact ⟨rfl, Or.inl rfl⟩
  · split at h
    · split at h
      · cases h
        exact ⟨rfl, Or.inr rfl⟩
      · cases h
    · cases h

theorem resolveMono_error (w : World) (r : RunResult)
    (h : resolveMono w = Except.error r) :
    ∃ m, r = pyFail (envMem w "CI") m := by
  unfold resolveMono at h
  split at h
  · cases h
    exact ⟨_, rfl⟩
  · split at h <;> cases h

theorem fetchNuget_error (w : World) (exe : String) (mono : List String)
    (r : RunResult) (h : fetchNuget w exe mono = Except.error r) :
    ∃ e, r = { trace := [Event.runCmd (fetchCmd exe)],
               term := Term.uncaught e } := by
  simp only [fetchNuget] at h
  split at h
  · split at h
    · cases h
    · cases h
      exact ⟨_, rfl⟩
  · cases h
    exact ⟨_, rfl⟩

theorem fetchNuget_ok (w : World) (exe : String) (mono : List String)
    (tr : List Event) (nuget : List String)
    (h : fetchNuget w exe mono = Except.ok (tr, nuget)) :
    tr = [Event.runCmd (fetchCmd exe)] ∧ ∃ line, nuget = mono ++ [line] := by
  simp only [fetchNuget] at h
  split at h
  · split at h
    · cases h
      exact ⟨rfl, _, rfl⟩
    · cases h
  · cases h

theorem getCreds_error (w : World) (r : RunResult)
    (h : getCreds w = Except.error r) :
    ∃ m, r = pyFail (envMem w "CI") m := by
  simp only [getCreds] at h
  split at h
  · cases h
    exact ⟨_, rfl⟩
  · split at h
    · cases h
      exact ⟨_, rfl⟩
    · cases h

theorem getCreds_ok (w : World) (u t : String)
    (h : getCreds w = Except.ok (u, t)) :
    u = envGetD w "VCPKG_NUGET_USER" "" ∧ u ≠ "" ∧
      t = envGetD w "VCPKG_NUGET_TOKEN" "" ∧ t ≠ "" := by
  simp only [getCreds] at h
  split at h
  · cases h
  · split at h
    · cases h
    · cases h
      refine ⟨rfl, ?_, rfl, ?_⟩ <;> assumption

theorem registerPrimary_error (w : World) (nuget : List String)
    (user token : String) (r : RunResult)
    (h : registerPrimary w nuget user token = Except.error r) :
    r.term = Term.uncaught "CalledProcessError" ∧
      (r.trace = [Event.runCmd (addCmd nuget (nugetUrl user) "GitHub" user token),
                  Event.runCmd (updateCmd nuget (nugetUrl user) "GitHub" user token)] ∨
       r.trace = [Event.runCmd (addCmd nuget (nugetUrl user) "GitHub" user token),
                  Event.runCmd (updateCmd nuget (nugetUrl user) "GitHub" user token),
                  Event.runCmd (setApiKeyCmd nuget token (nugetUrl user))]) := by
  simp only [registerPrimary] at h
  split at h
  · split at h
    · cases h
    · cases h
      exact ⟨rfl, Or.inr rfl⟩
  · cases h
    exact ⟨rfl, Or.inl rfl⟩

theorem registerPrimary_ok (w : World) (nuget : List String)
    (user token : String) (tr : List Event)
    (h : registerPrimary w nuget user token = Except.ok tr) :
    tr = [Event.runCmd (addCmd nuget (nugetUrl user) "GitHub" user token),
          Event.runCmd (updateCmd nuget (nugetUrl user) "GitHub" user token),
          Event.runCmd (setApiKeyCmd nuget token (nugetUrl user))] := by
  simp only [registerPrimary] at h
  split at h
  · split at h
    · cases h
      rfl
    · cases h
  · cases h

theorem registerSecondary_error (w : World) (nuget : List String)
    (user : String) (r : RunResult)
    (h : registerSecondary w nuget user = Except.error r) :
    (∃ m, r = pyFail (envMem w "CI") m) ∨
      (r.term = Term.uncaught "CalledProcessError" ∧
        ∃ add upd, r.trace = [Event.runCmd add, Event.runCmd upd]) := by
  simp only [registerSecondary] at h
  split at h
  · cases h
  · split at h
    · cases h
      exact Or.inl ⟨_, rfl⟩
    · split at h
      · cases h
      · split at h
        · cases h
        · cases h
          exact Or.inr ⟨rfl, _, _, rfl⟩

theorem registerSecondary_ok (w : World) (nuget : List String)
    (user : String) (tr : List Event) (oo : Option String)
    (h : registerSecondary w nuget user = Except.ok (tr, oo)) :
    (tr = [] ∧ oo = none) ∨
    (tr = [Event.errLine sameFeedMsg] ∧ oo = none) ∨
    (∃ owner add upd, owner ≠ "" ∧ owner ≠ user ∧
      owner = envGetD w "VCPKG_PRIMARY_NUGET_OWNER" "" ∧
      tr = [Event.runCmd add, Event.runCmd upd] ∧ oo = some owner) := by
  simp only [registerSecondary] at h
  split at h
  · cases h
    exact Or.inl ⟨rfl, rfl⟩
  · split at h
    · cases h
    · split at h
      · cases h
        exact Or.inr (Or.inl ⟨rfl, rfl⟩)
      · split at h
        · cases h
          refine Or.inr (Or.inr ⟨_, _, _, ?_, ?_, rfl, rfl, rfl⟩) <;>
            assumption
        · cases h

theorem resolveRoot_of_mem (w : World)
    (h : envMem w "VCPKG_ROOT" = true) :
    resolveRoot w
      = Except.ok ([], pathOfString (envGetD w "VCPKG_ROOT" "")) := by
  simp [resolveRoot, h]

theorem resolveRoot_of_fallback (w : World)
    (h1 : envMem w "VCPKG_ROOT" = false)
    (h2 : envMem w "VCPKG_INSTALLATION_ROOT" = true) :
    resolveRoot w
      = Except.ok ([("VCPKG_ROOT", envGetD w "VCPKG_INSTALLATION_ROOT" "")],
          pathOfString (envGetD w "VCPKG_INSTALLATION_ROOT" "")) := by
  simp [resolveRoot, h1, h2]

theorem resolveRoot_of_missing (w : World)
    (h1 : envMem w "VCPKG_ROOT" = false)
    (h2 : envMem w "VCPKG_INSTALLATION_ROOT" = false) :
    resolveRoot w = Except.error (pyFail (envMem w "CI") rootMissingMsg) := by
  simp [resolveRoot, h1, h2]

theorem ensureVcpkgExe_of_exists (w : World) (root : String)
    (h : w.pathExists (vcpkgExePath w root) = true) :
    ensureVcpkgExe w root = Except.ok ([], vcpkgExePath w root) := by
  simp [ensureVcpkgExe, h]

theorem resolveMono_of_nonwin (w : World)
    (h1 : w.isWin = false) (h2 : w.whichMono = true) :
    resolveMono w = Except.ok ["mono"] := by
  simp [resolveMono, h1, h2]

theorem resolveMono_of_noMono (w : World)
    (h1 : w.isWin = false) (h2 : w.whichMono = false) :
    resolveMono w = Except.error (pyFail (envMem w "CI") monoMissingMsg) := by
  simp [resolveMono, h1, h2]

theorem fetchNuget_of_ok (w : World) (exe : String) (mono : List String)
    (line : String) (h1 : w.cmdExit (fetchCmd exe) = 0)
    (h2 : (pySplitlines w.fetchOutput).getLast? = some line) :
    fetchNuget w exe mono
      = Except.ok ([Event.runCmd (fetchCmd exe)], mono ++ [line]) := by
  simp [fetchNuget, h1, h2]

theorem fetchNuget_of_emptyOutput (w : World) (exe : String)
    (mono : List String) (h1 : w.cmdExit (fetchCmd exe) = 0)
    (h2 : pySplitlines w.fetchOutput = []) :
    fetchNuget w exe mono
      = Except.error { trace := [Event.runCmd (fetchCmd exe)],
                       term := Term.uncaught "IndexError" } := by
  simp [fetchNuget, h1, h2]

theorem getCreds_of_ok (w : World)
    (hu : envGetD w "VCPKG_NUGET_USER" "" ≠ "")
    (ht : envGetD w "VCPKG_NUGET_TOKEN" "" ≠ "") :
    getCreds w = Except.ok
      (envGetD w "VCPKG_NUGET_USER" "", envGetD w "VCPKG_NUGET_TOKEN" "") := by
  simp [getCreds, hu, ht]

theorem getCreds_of_noUser (w : World)
    (h : envGetD w "VCPKG_NUGET_USER" "" = "") :
    getCreds w = Except.error (pyFail (envMem w "CI") userMissingMsg) := by
  simp [getCreds, h]

theorem getCreds_of_noToken (w : World)
    (hu : envGetD w "VCPKG_NUGET_USER" "" ≠ "")
    (ht : envGetD w "VCPKG_NUGET_TOKEN" "" = "") :
    getCreds w = Except.error (pyFail (envMem w "CI") tokenMissingMsg) := by
  simp [getCreds, hu, ht]

theorem registerPrimary_of_ok (w : World) (nuget : List String)
    (user token : String)
    (h1 : w.cmdExit (updateCmd nuget (nugetUrl user) "GitHub" user token) = 0)
    (h2 : w.cmdExit (setApiKeyCmd nuget token (nugetUrl user)) = 0) :
    registerPrimary w nuget user token = Except.ok
      [Event.runCmd (addCmd nuget (nugetUrl user) "GitHub" user token),
       Event.runCmd (updateCmd nuget (nugetUrl user) "GitHub" user token),
       Event.runCmd (setApiKeyCmd nuget token (nugetUrl user))] := by
  simp [registerPrimary, h1, h2]

theorem registerSecondary_of_noToken (w : World) (nuget : List String)
    (user : String) (h : envGetD w "VCPKG_PRIMARY_NUGET_TOKEN" "" = "") :
    registerSecondary w nuget user = Except.ok ([], none) := by
  simp [registerSecondary, h]

theorem registerSecondary_of_sameOwner (w : World) (nuget : List String)
    (user : String)
    (htok : envGetD w "VCPKG_PRIMARY_NUGET_TOKEN" "" ≠ "")
    (howner : envGetD w "VCPKG_PRIMARY_NUGET_OWNER" "" = user)
    (huser : user ≠ "") :
    registerSecondary w nuget user
      = Except.ok ([Event.errLine sameFeedMsg], none) := by
  simp [registerSecondary, htok, howner, huser]

theorem registerSecondary_of_noOwner (w : World) (nuget : List String)
    (user : String)
    (htok : envGetD w "VCPKG_PRIMARY_NUGET_TOKEN" "" ≠ "")
    (howner : envGetD w "VCPKG_PRIMARY_NUGET_OWNER" "" = "") :
    registerSecondary w nuget user
      = Except.error (pyFail (envMem w "CI") ownerMissingMsg) := by
  simp [registerSecondary, htok, howner]

/-- Property bundle for the failure-sink analysis: a run that ends in
`failExit` (the `fail` routine) exits 1, printed a shell statement and a
diagnostic; a run that ends in an uncaught exception exits 1 but printed no
shell statement. -/
def sinkOK (r : RunResult) : Prop :=
  (r.term = Term.failExit →
      exitCode r = 1 ∧ hasShellStmt r.trace = true ∧ errLines r.trace ≠ []) ∧
  (∀ e, r.term = Term.uncaught e →
      exitCode r = 1 ∧ hasShellStmt r.trace = false)

theorem sinkOK_of_fail (r : RunResult) (h : r.term = Term.failExit)
    (hs : hasShellStmt r.trace = true) (he : errLines r.trace ≠ []) :
    sinkOK r := by
  constructor
  · intro _
    exact ⟨by simp [exitCode, h], hs, he⟩
  · intro e hu
    rw [h] at hu
    cases hu

theorem sinkOK_of_uncaught (r : RunResult) (e0 : String)
    (h : r.term = Term.uncaught e0) (ho : outLines r.trace = []) :
    sinkOK r := by
  constructor
  · intro hf
    rw [h] at hf
    cases hf
  · intro e _
    exact ⟨by simp [exitCode, h],
           hasShellStmt_eq_false_of_outLines_nil _ ho⟩

theorem sinkOK_of_normal (r : RunResult) (h : r.term = Term.normal) :
    sinkOK r := by
  constructor
  · intro hf
    rw [h] at hf
    cases hf
  · intro e hu
    rw [h] at hu
    cases hu

theorem sinkOK_pyFail (ci : Bool) (m : String) : sinkOK (pyFail ci m) :=
  sinkOK_of_fail _ rfl (pyFail_hasShellStmt ci m)
    (by rw [pyFail_errLines]; simp)

theorem sinkOK_prepend_pyFail (pre : List Event) (ci : Bool) (m : String) :
    sinkOK (prependTrace pre (pyFail ci m)) :=
  sinkOK_of_fail _ rfl
    (by rw [prependTrace_trace, hasShellStmt_append, pyFail_hasShellStmt]; simp)
    (by rw [prependTrace_trace, errLines_append, pyFail_errLines]; simp)

theorem sinkOK_prepend_uncaught (pre : List Event) (r : RunResult)
    (e0 : String) (h : r.term = Term.uncaught e0)
    (hpre : outLines pre = []) (hro : outLines r.trace = []) :
    sinkOK (prependTrace pre r) :=
  sinkOK_of_uncaught _ e0 (by rw [prependTrace_term, h])
    (by rw [prependTrace_trace, outLines_append, hpre, hro]; rfl)

/-- C1 (amended): every failure detected by the script's own validation
(missing environment variable, missing bootstrap script, missing runtime)
terminates through the single `fail` routine, which prints a diagnostic to
stderr and a shell statement to stdout and exits non-zero; a non-zero exit
of a mandatory external command (or an empty fetch output) still exits
non-zero but via an uncaught exception, printing no shell statement. -/
theorem C1_amended_failure_sink (w : World) :
    ((pyMain w).term = Term.failExit →
        exitCode (pyMain w) = 1 ∧ hasShellStmt (pyMain w).trace = true ∧
          errLines (pyMain w).trace ≠ []) ∧
    (∀ e, (pyMain w).term = Term.uncaught e →
        exitCode (pyMain w) = 1 ∧ hasShellStmt (pyMain w).trace = false) := by
  suffices h : sinkOK (pyMain w) from h
  rcases hA : resolveRoot w with rA | ⟨exp0, root⟩
  · obtain ⟨m, rfl⟩ := resolveRoot_error w rA hA
    simp only [pyMain, hA]
    exact sinkOK_pyFail _ _
  · rcases hB : ensureVcpkgExe w root with rB | ⟨tr1, exe⟩
    · rcases ensureVcpkgExe_error w root rB hB with ⟨m, rfl⟩ | rfl
      · simp only [pyMain, hA, hB]
        exact sinkOK_pyFail _ _
      · simp only [pyMain, hA, hB]
        exact sinkOK_of_uncaught _ "CalledProcessError" rfl (by simp)
    · obtain ⟨-, htr1⟩ := ensureVcpkgExe_ok w root tr1 exe hB
      have htr1o : outLines tr1 = [] := by
        rcases htr1 with rfl | rfl <;> simp
      rcases hC : resolveMono w with rC | mono
      · obtain ⟨m, rfl⟩ := resolveMono_error w rC hC
        simp only [pyMain, hA, hB, hC]
        exact sinkOK_prepend_pyFail _ _ _
      · rcases hD : fetchNuget w exe mono with rD | ⟨tr2, nuget⟩
        · obtain ⟨e0, rfl⟩ := fetchNuget_error w exe mono rD hD
          simp only [pyMain, hA, hB, hC, hD]
          exact sinkOK_prepend_uncaught _ _ e0 rfl htr1o (by simp)
        · obtain ⟨htr2, -, -⟩ := fetchNuget_ok w exe mono tr2 nuget hD
          have htr2o : outLines tr2 = [] := by rw [htr2]; simp
          rcases hE : getCreds w with rE | ⟨u, t⟩
          · obtain ⟨m, rfl⟩ := getCreds_error w rE hE
            simp only [pyMain, hA, hB, hC, hD, hE]
            exact sinkOK_prepend_pyFail _ _ _
          · rcases hF : registerPrimary w nuget u t with rF | tr3
            · obtain ⟨htermF, htrF⟩ := registerPrimary_error w nuget u t rF hF
              simp only [pyMain, hA, hB, hC, hD, hE, hF]
              refine sinkOK_prepend_uncaught _ _ _ htermF (by simp [htr1o, htr2o]) ?_
              rcases htrF with h | h <;> rw [h] <;> simp
            · have htr3 := registerPrimary_ok w nuget u t tr3 hF
              have htr3o : outLines tr3 = [] := by rw [htr3]; simp
              rcases hG : registerSecondary w nuget u with rG | ⟨tr4, oo⟩
              · rcases registerSecondary_error w nuget u rG hG with ⟨m, rfl⟩ | ⟨htermG, add, upd, htrG⟩
                · simp only [pyMain, hA, hB, hC, hD, hE, hF, hG]
                  exact sinkOK_prepend_pyFail _ _ _
                · simp only [pyMain, hA, hB, hC, hD, hE, hF, hG]
                  refine sinkOK_prepend_uncaught _ _ _ htermG
                    (by simp [htr1o, htr2o, htr3o]) (by rw [htrG]; simp)
              · simp only [pyMain, hA, hB, hC, hD, hE, hF, hG]
                exact sinkOK_of_normal _ rfl

/-- Concrete world for claim C1: `VCPKG_ROOT` points to a directory holding
only the bootstrap script, and the bootstrap script exits 1. -/
def w1ce : World :=
  { env := [("VCPKG_ROOT", "/v"), ("CI", "1")],
    isWin := false, whichMono := true,
    pathExists := fun s => s == "/v/bootstrap-vcpkg.sh",
    cmdExit := fun _ => 1,
    fetchOutput := "" }

/-- C1 counterexample: a failure (non-zero exit of the mandatory bootstrap
`check_call`) that terminates the process non-zero WITHOUT the single
failure routine: no diagnostic line and no shell statement are printed, the
process dies of an uncaught `CalledProcessError`. -/
theorem C1_counterexample :
    exitCode (pyMain w1ce) = 1 ∧
    (pyMain w1ce).term = Term.uncaught "CalledProcessError" ∧
    hasShellStmt (pyMain w1ce).trace = false ∧
    errLines (pyMain w1ce).trace = [] := by
  decide

/-- Concrete world for the C1 witness: no environment variables at all, so
`main` fails at the root check through the `fail` routine. -/
def w1wit : World :=
  { env := [], isWin := false, whichMono := true,
    pathExists := fun _ => false,
    cmdExit := fun _ => 0,
    fetchOutput := "" }

/-- Witness for C1: the amended theorem applied at concrete worlds (one run
through `fail`, one through an uncaught exception). -/
theorem C1_amended_failure_sink_witness :
    (exitCode (pyMain w1wit) = 1 ∧ hasShellStmt (pyMain w1wit).trace = true ∧
      errLines (pyMain w1wit).trace ≠ []) ∧
    (exitCode (pyMain w1ce) = 1 ∧ hasShellStmt (pyMain w1ce).trace = false) :=
  ⟨(C1_amended_failure_sink w1wit).1 (by decide),
   (C1_amended_failure_sink w1ce).2 "CalledProcessError" (by decide)⟩

/-- C2 (amended): the username, the token, and the secondary owner are
validated for truthiness, so once validation succeeds the values used
afterwards are non-empty strings; the root-directory variable, however, is
only checked for presence, so an empty value passes its validation. -/
theorem C2_amended_validated_nonempty (w : World) :
    (∀ u t, getCreds w = Except.ok (u, t) → u ≠ "" ∧ t ≠ "") ∧
    (∀ nuget user tr oo, registerSecondary w nuget user = Except.ok (tr, oo) →
        envGetD w "VCPKG_PRIMARY_NUGET_TOKEN" "" ≠ "" →
        envGetD w "VCPKG_PRIMARY_NUGET_OWNER" "" ≠ "") ∧
    (∀ nuget user tr owner,
        registerSecondary w nuget user = Except.ok (tr, some owner) →
        owner ≠ "") := by
  refine ⟨?_, ?_, ?_⟩
  · intro u t h
    obtain ⟨-, hu, -, ht⟩ := getCreds_ok w u t h
    exact ⟨hu, ht⟩
  · intro nuget user tr oo h htok
    simp only [registerSecondary] at h
    split at h
    · exact absurd (by assumption) htok
    · split at h
      · cases h
      · exact (by assumption)
  · intro nuget user tr owner h
    rcases registerSecondary_ok w nuget user tr (some owner) h with
      ⟨-, ho⟩ | ⟨-, ho⟩ | ⟨o, add, upd, ho1, -, -, -, ho⟩
    · cases ho
    · cases ho
    · cases ho
      exact ho1

/-- Concrete world for claim C2: `VCPKG_ROOT` is present but set to the
empty string; everything else is in place for a fully successful run (the
empty path resolves to the current directory, where `vcpkg` exists). -/
def w2ce : World :=
  { env := [("VCPKG_ROOT", ""), ("VCPKG_NUGET_USER", "u"),
            ("VCPKG_NUGET_TOKEN", "t")],
    isWin := false, whichMono := true,
    pathExists := fun s => s == "vcpkg",
    cmdExit := fun _ => 0,
    fetchOutput := "nuget.exe\n" }

/-- C2 counterexample: the root-directory variable set to the empty string
passes validation — the run does not fail at all (it completes normally),
contradicting the claim that an empty required variable fails validation. -/
theorem C2_counterexample :
    envGet w2ce "VCPKG_ROOT" = some "" ∧
    (pyMain w2ce).term = Term.normal := by
  decide

/-- Concrete world for the C2 witness, with non-empty credentials and a
secondary feed whose owner differs from the username. -/
def w2wit : World :=
  { env := [("VCPKG_ROOT", "/v"), ("VCPKG_NUGET_USER", "u"),
            ("VCPKG_NUGET_TOKEN", "t"), ("VCPKG_PRIMARY_NUGET_TOKEN", "pt"),
            ("VCPKG_PRIMARY_NUGET_OWNER", "o")],
    isWin := false, whichMono := true,
    pathExists := fun s => s == "/v/vcpkg",
    cmdExit := fun _ => 0,
    fetchOutput := "nuget.exe\n" }

/-- Witness for C2: the amended theorem applied at a concrete world. -/
theorem C2_amended_validated_nonempty_witness :
    ("u" : String) ≠ "" ∧ ("t" : String) ≠ "" :=
  (C2_amended_validated_nonempty w2wit).1 "u" "t" rfl

/-- C4: after the credentials are validated, the NuGet client is invoked
exactly three times for the primary feed, in the order `sources add`,
`sources update`, `setapikey`.  The exit status of `sources add` is never
consulted (the three cases below cover every world, whatever
`w.cmdExit` returns for the add command); a non-zero `sources update` exit
aborts after the second call, and a non-zero `setapikey` exit aborts after
the third, both via an uncaught `CalledProcessError`. -/
theorem C4_nuget_three_calls (w : World) (nuget : List String)
    (user token : String) :
    (w.cmdExit (updateCmd nuget (nugetUrl user) "GitHub" user token) = 0 →
      w.cmdExit (setApiKeyCmd nuget token (nugetUrl user)) = 0 →
      registerPrimary w nuget user token = Except.ok
        [Event.runCmd (addCmd nuget (nugetUrl user) "GitHub" user token),
         Event.runCmd (updateCmd nuget (nugetUrl user) "GitHub" user token),
         Event.runCmd (setApiKeyCmd nuget token (nugetUrl user))]) ∧
    (w.cmdExit (updateCmd nuget (nugetUrl user) "GitHub" user token) ≠ 0 →
      registerPrimary w nuget user token = Except.error
        { trace := [Event.runCmd (addCmd nuget (nugetUrl user) "GitHub" user token),
                    Event.runCmd (updateCmd nuget (nugetUrl user) "GitHub" user token)],
          term := Term.uncaught "CalledProcessError" }) ∧
    (w.cmdExit (updateCmd nuget (nugetUrl user) "GitHub" user token) = 0 →
      w.cmdExit (setApiKeyCmd nuget token (nugetUrl user)) ≠ 0 →
      registerPrimary w nuget user token = Except.error
        { trace := [Event.runCmd (addCmd nuget (nugetUrl user) "GitHub" user token),
                    Event.runCmd (updateCmd nuget (nugetUrl user) "GitHub" user token),
                    Event.runCmd (setApiKeyCmd nuget token (nugetUrl user))],
          term := Term.uncaught "CalledProcessError" }) := by
  refine ⟨?_, ?_, ?_⟩ <;> intros <;> simp [registerPrimary, *]

/-- Concrete world for the C4 witness: every external command succeeds. -/
def w4ok : World :=
  { env := [], isWin := false, whichMono := true,
    pathExists := fun _ => true,
    cmdExit := fun _ => 0,
    fetchOutput := "" }

/-- Concrete world for the C4 witness: `sources update` fails. -/
def w4upd : World :=
  { env := [], isWin := false, whichMono := true,
    pathExists := fun _ => true,
    cmdExit := fun c => if c.contains "update" then 1 else 0,
    fetchOutput := "" }

/-- Witness for C4: the theorem applied at concrete worlds, once on the
all-success path and once with a failing `sources update`. -/
theorem C4_nuget_three_calls_witness :
    registerPrimary w4ok ["mono", "nuget.exe"] "u" "t" = Except.ok
      [Event.runCmd (addCmd ["mono", "nuget.exe"] (nugetUrl "u") "GitHub" "u" "t"),
       Event.runCmd (updateCmd ["mono", "nuget.exe"] (nugetUrl "u") "GitHub" "u" "t"),
       Event.runCmd (setApiKeyCmd ["mono", "nuget.exe"] "t" (nugetUrl "u"))] ∧
    registerPrimary w4upd ["mono", "nuget.exe"] "u" "t" = Except.error
      { trace := [Event.runCmd (addCmd ["mono", "nuget.exe"] (nugetUrl "u") "GitHub" "u" "t"),
                  Event.runCmd (updateCmd ["mono", "nuget.exe"] (nugetUrl "u") "GitHub" "u" "t")],
        term := Term.uncaught "CalledProcessError" } :=
  ⟨(C4_nuget_three_calls w4ok ["mono", "nuget.exe"] "u" "t").1 rfl rfl,
   (C4_nuget_three_calls w4upd ["mono", "nuget.exe"] "u" "t").2.1 (by decide)⟩


/-- Characterization of a fully successful run: with a resolved root, an
existing vcpkg executable, a non-Windows platform with mono, a successful
fetch with at least one output line, non-empty credentials, and successful
mandatory NuGet calls, `main` runs the fetch and the three primary-feed
commands, performs the optional secondary stage, and prints the export
lines, terminating normally. -/
theorem pyMain_success (w : World) (exp0 : List (String × String))
    (root line u t : String) (tr4 : List Event) (oo : Option String)
    (hA : resolveRoot w = Except.ok (exp0, root))
    (hexe : w.pathExists (vcpkgExePath w root) = true)
    (hwin : w.isWin = false) (hmono : w.whichMono = true)
    (hfetch : w.cmdExit (fetchCmd (vcpkgExePath w root)) = 0)
    (hline : (pySplitlines w.fetchOutput).getLast? = some line)
    (hu : envGetD w "VCPKG_NUGET_USER" "" = u) (hu0 : u ≠ "")
    (ht : envGetD w "VCPKG_NUGET_TOKEN" "" = t) (ht0 : t ≠ "")
    (hupd : w.cmdExit (updateCmd ["mono", line] (nugetUrl u) "GitHub" u t) = 0)
    (hapi : w.cmdExit (setApiKeyCmd ["mono", line] t (nugetUrl u)) = 0)
    (hG : registerSecondary w ["mono", line] u = Except.ok (tr4, oo)) :
    pyMain w =
      { trace :=
          [Event.runCmd (fetchCmd (vcpkgExePath w root)),
           Event.runCmd (addCmd ["mono", line] (nugetUrl u) "GitHub" u t),
           Event.runCmd (updateCmd ["mono", line] (nugetUrl u) "GitHub" u t),
           Event.runCmd (setApiKeyCmd ["mono", line] t (nugetUrl u))]
          ++ tr4
          ++ printExportVariables w.isWin
              (match oo with
               | some owner =>
                   dictInsert
                     (dictInsert exp0 "VCPKG_BINARY_SOURCES" binarySourcesTemplate)
                     "VCPKG_BINARY_SOURCES"
                     (dictGetD
                       (dictInsert exp0 "VCPKG_BINARY_SOURCES" binarySourcesTemplate)
                       "VCPKG_BINARY_SOURCES" ""
                       ++ ";nuget," ++ owner ++ ",read")
               | none =>
                   dictInsert exp0 "VCPKG_BINARY_SOURCES" binarySourcesTemplate),
        term := Term.normal } := by
  have hB := ensureVcpkgExe_of_exists w root hexe
  have hC := resolveMono_of_nonwin w hwin hmono
  have hD := fetchNuget_of_ok w (vcpkgExePath w root) ["mono"] line hfetch hline
  have hE : getCreds w = Except.ok (u, t) := by
    rw [← hu, ← ht]
    exact getCreds_of_ok w (hu ▸ hu0) (ht ▸ ht0)
  have hF := registerPrimary_of_ok w ["mono", line] u t hupd hapi
  simp only [pyMain, hA, hB, hC, hD, hE, hF, hG]
  cases oo <;> simp [hF, hG]

@[simp] theorem runCmds_printExportVariables (b : Bool)
    (l : List (String × String)) :
    runCmds (printExportVariables b l) = [] := by
  induction l with
  | nil => rfl
  | cons p l ih => simpa [printExportVariables] using ih

@[simp] theorem errLines_printExportVariables (b : Bool)
    (l : List (String × String)) :
    errLines (printExportVariables b l) = [] := by
  induction l with
  | nil => rfl
  | cons p l ih => simpa [printExportVariables] using ih

@[simp] theorem outLines_printExportVariables (b : Bool)
    (l : List (String × String)) :
    outLines (printExportVariables b l) = l.map (exportLine b) := by
  induction l with
  | nil => rfl
  | cons p l ih => simpa [printExportVariables] using ih

theorem envGetD_of_not_mem (w : World) (k d : String)
    (h : envMem w k = false) : envGetD w k d = d := by
  unfold envMem at h
  unfold envGetD
  cases henv : envGet w k with
  | none => rfl
  | some v => rw [henv] at h; cases h

/-- C3 (amended): in the end-to-end success scenario — `VCPKG_ROOT` set and
the vcpkg executable present (so the fallback path is not used), username
and token non-empty, no secondary token, `CI` unset, all external commands
succeeding with at least one fetch output line — the standard output is
exactly ONE export line, the one setting `VCPKG_BINARY_SOURCES` to the
fixed template, and the exit code is 0 (the root-variable line would appear
only on the fallback path, which this scenario does not take). -/
theorem C3_amended_end_to_end (w : World) (root line u t : String)
    (hr : pathOfString (envGetD w "VCPKG_ROOT" "") = root)
    (hroot : envMem w "VCPKG_ROOT" = true)
    (hexe : w.pathExists (vcpkgExePath w root) = true)
    (hwin : w.isWin = false) (hmono : w.whichMono = true)
    (hci : envMem w "CI" = false)
    (hfetch : w.cmdExit (fetchCmd (vcpkgExePath w root)) = 0)
    (hline : (pySplitlines w.fetchOutput).getLast? = some line)
    (hu : envGetD w "VCPKG_NUGET_USER" "" = u) (hu0 : u ≠ "")
    (ht : envGetD w "VCPKG_NUGET_TOKEN" "" = t) (ht0 : t ≠ "")
    (hsec : envGetD w "VCPKG_PRIMARY_NUGET_TOKEN" "" = "")
    (hupd : w.cmdExit (updateCmd ["mono", line] (nugetUrl u) "GitHub" u t) = 0)
    (hapi : w.cmdExit (setApiKeyCmd ["mono", line] t (nugetUrl u)) = 0) :
    outLines (pyMain w).trace
      = ["export VCPKG_BINARY_SOURCES='clear;nuget,GitHub,readwrite;nugettimeout,3601'"] ∧
    exitCode (pyMain w) = 0 := by
  have hA : resolveRoot w = Except.ok ([], root) := by
    rw [← hr]
    exact resolveRoot_of_mem w hroot
  have hG := registerSecondary_of_noToken w ["mono", line] u hsec
  have h := pyMain_success w [] root line u t [] none hA hexe hwin hmono
    hfetch hline hu hu0 ht ht0 hupd hapi hG
  rw [h]
  refine ⟨?_, rfl⟩
  have hline1 : exportLine w.isWin ("VCPKG_BINARY_SOURCES", binarySourcesTemplate)
      = "export VCPKG_BINARY_SOURCES='clear;nuget,GitHub,readwrite;nugettimeout,3601'" := by
    rw [hwin]
    rfl
  simp [dictInsert, hline1]

/-- Concrete world for claim C3: the exact scenario of the claim, with the
root set to an existing tool directory and all commands succeeding. -/
def w3ce : World :=
  { env := [("VCPKG_ROOT", "/v"), ("VCPKG_NUGET_USER", "u"),
            ("VCPKG_NUGET_TOKEN", "t")],
    isWin := false, whichMono := true,
    pathExists := fun s => s == "/v/vcpkg",
    cmdExit := fun _ => 0,
    fetchOutput := "nuget.exe\n" }

/-- C3 counterexample: in the claim's scenario the standard output holds
exactly ONE export line, not the two the claim asserts. -/
theorem C3_counterexample :
    (pyMain w3ce).term = Term.normal ∧
    envGet w3ce "VCPKG_ROOT" = some "/v" ∧
    envMem w3ce "CI" = false ∧
    envGet w3ce "VCPKG_PRIMARY_NUGET_TOKEN" = none ∧
    (outLines (pyMain w3ce).trace).length = 1 ∧
    (outLines (pyMain w3ce).trace).length ≠ 2 := by
  decide

/-- Witness for C3: the amended theorem applied at the concrete scenario
world. -/
theorem C3_amended_end_to_end_witness :
    outLines (pyMain w3ce).trace
      = ["export VCPKG_BINARY_SOURCES='clear;nuget,GitHub,readwrite;nugettimeout,3601'"] ∧
    exitCode (pyMain w3ce) = 0 :=
  C3_amended_end_to_end w3ce "/v" "nuget.exe" "u" "t" rfl rfl (by decide)
    rfl rfl (by decide) rfl (by decide) rfl (by decide) rfl (by decide) rfl
    rfl rfl

/-- C6: when `VCPKG_ROOT` is unset and `VCPKG_INSTALLATION_ROOT` is set,
the root stage exports the fallback value under the name `VCPKG_ROOT` and
returns it (as a `pathlib` path) as the root; consequently, in a completing
run, every path is resolved against it — the fetch invocation uses the
vcpkg executable under that root and the printed exports carry the
fallback value under `VCPKG_ROOT`, first, in insertion order. -/
theorem C6_fallback_export (w : World) (v line u t : String)
    (h1 : envMem w "VCPKG_ROOT" = false)
    (h2 : envMem w "VCPKG_INSTALLATION_ROOT" = true)
    (hv : envGetD w "VCPKG_INSTALLATION_ROOT" "" = v) :
    resolveRoot w = Except.ok ([("VCPKG_ROOT", v)], pathOfString v) ∧
    (w.pathExists (vcpkgExePath w (pathOfString v)) = true →
     w.isWin = false → w.whichMono = true →
     w.cmdExit (fetchCmd (vcpkgExePath w (pathOfString v))) = 0 →
     (pySplitlines w.fetchOutput).getLast? = some line →
     envGetD w "VCPKG_NUGET_USER" "" = u → u ≠ "" →
     envGetD w "VCPKG_NUGET_TOKEN" "" = t → t ≠ "" →
     envGetD w "VCPKG_PRIMARY_NUGET_TOKEN" "" = "" →
     w.cmdExit (updateCmd ["mono", line] (nugetUrl u) "GitHub" u t) = 0 →
     w.cmdExit (setApiKeyCmd ["mono", line] t (nugetUrl u)) = 0 →
       runCmds (pyMain w).trace
         = [fetchCmd (vcpkgExePath w (pathOfString v)),
            addCmd ["mono", line] (nugetUrl u) "GitHub" u t,
            updateCmd ["mono", line] (nugetUrl u) "GitHub" u t,
            setApiKeyCmd ["mono", line] t (nugetUrl u)] ∧
       outLines (pyMain w).trace
         = [exportLine w.isWin ("VCPKG_ROOT", v),
            exportLine w.isWin ("VCPKG_BINARY_SOURCES", binarySourcesTemplate)]) := by
  have hA : resolveRoot w = Except.ok ([("VCPKG_ROOT", v)], pathOfString v) := by
    rw [← hv]
    exact resolveRoot_of_fallback w h1 h2
  refine ⟨hA, ?_⟩
  intro hexe hwin hmono hfetch hline hu hu0 ht ht0 hsec hupd hapi
  have hG := registerSecondary_of_noToken w ["mono", line] u hsec
  have h := pyMain_success w [("VCPKG_ROOT", v)] (pathOfString v) line u t
    [] none hA hexe hwin hmono hfetch hline hu hu0 ht ht0 hupd hapi hG
  rw [h]
  constructor
  · simp
  · simp [dictInsert]

/-- Concrete world for the C6 witness: only the fallback root variable is
set; the tool directory it names contains the vcpkg executable. -/
def w6wit : World :=
  { env := [("VCPKG_INSTALLATION_ROOT", "/gh"), ("VCPKG_NUGET_USER", "u"),
            ("VCPKG_NUGET_TOKEN", "t")],
    isWin := false, whichMono := true,
    pathExists := fun s => s == "/gh/vcpkg",
    cmdExit := fun _ => 0,
    fetchOutput := "nuget.exe\n" }

/-- Witness for C6: the theorem applied at a concrete world where only the
fallback variable is set; the run resolves every path under `/gh` and
exports `VCPKG_ROOT='/gh'`. -/
theorem C6_fallback_export_witness :
    resolveRoot w6wit = Except.ok ([("VCPKG_ROOT", "/gh")], pathOfString "/gh") ∧
    runCmds (pyMain w6wit).trace
      = [fetchCmd (vcpkgExePath w6wit (pathOfString "/gh")),
         addCmd ["mono", "nuget.exe"] (nugetUrl "u") "GitHub" "u" "t",
         updateCmd ["mono", "nuget.exe"] (nugetUrl "u") "GitHub" "u" "t",
         setApiKeyCmd ["mono", "nuget.exe"] "t" (nugetUrl "u")] ∧
    outLines (pyMain w6wit).trace
      = [exportLine w6wit.isWin ("VCPKG_ROOT", "/gh"),
         exportLine w6wit.isWin ("VCPKG_BINARY_SOURCES", binarySourcesTemplate)] := by
  have h := C6_fallback_export w6wit "/gh" "nuget.exe" "u" "t" (by decide)
    (by decide) rfl
  have h2 := h.2 rfl rfl rfl rfl (by decide) rfl (by decide) rfl (by decide)
    rfl rfl rfl
  exact ⟨h.1, h2.1, h2.2⟩

/-- C7: when the secondary owner equals the primary username, the secondary
stage runs no registration command, only logs the informational message,
and the binary-cache export stays exactly the primary fixed template: in a
completing run the invoked commands are exactly the fetch plus the three
primary-feed commands, the message is in the trace, and the sole export
line carries the unmodified template (no read-only feed segment). -/
theorem C7_same_owner_skip (w : World) (root line u t : String)
    (hr : pathOfString (envGetD w "VCPKG_ROOT" "") = root)
    (hroot : envMem w "VCPKG_ROOT" = true)
    (hexe : w.pathExists (vcpkgExePath w root) = true)
    (hwin : w.isWin = false) (hmono : w.whichMono = true)
    (hfetch : w.cmdExit (fetchCmd (vcpkgExePath w root)) = 0)
    (hline : (pySplitlines w.fetchOutput).getLast? = some line)
    (hu : envGetD w "VCPKG_NUGET_USER" "" = u) (hu0 : u ≠ "")
    (ht : envGetD w "VCPKG_NUGET_TOKEN" "" = t) (ht0 : t ≠ "")
    (htok : envGetD w "VCPKG_PRIMARY_NUGET_TOKEN" "" ≠ "")
    (howner : envGetD w "VCPKG_PRIMARY_NUGET_OWNER" "" = u)
    (hupd : w.cmdExit (updateCmd ["mono", line] (nugetUrl u) "GitHub" u t) = 0)
    (hapi : w.cmdExit (setApiKeyCmd ["mono", line] t (nugetUrl u)) = 0) :
    (pyMain w).term = Term.normal ∧
    Event.errLine sameFeedMsg ∈ (pyMain w).trace ∧
    runCmds (pyMain w).trace
      = [fetchCmd (vcpkgExePath w root),
         addCmd ["mono", line] (nugetUrl u) "GitHub" u t,
         updateCmd ["mono", line] (nugetUrl u) "GitHub" u t,
         setApiKeyCmd ["mono", line] t (nugetUrl u)] ∧
    outLines (pyMain w).trace
      = [exportLine w.isWin ("VCPKG_BINARY_SOURCES", binarySourcesTemplate)] := by
  have hA : resolveRoot w = Except.ok ([], root) := by
    rw [← hr]
    exact resolveRoot_of_mem w hroot
  have hG := registerSecondary_of_sameOwner w ["mono", line] u htok howner hu0
  have h := pyMain_success w [] root line u t [Event.errLine sameFeedMsg] none
    hA hexe hwin hmono hfetch hline hu hu0 ht ht0 hupd hapi hG
  rw [h]
  refine ⟨rfl, ?_, ?_, ?_⟩
  · simp
  · simp
  · simp [dictInsert]

/-- Concrete world for the C7 witness: the secondary owner equals the
username `u`. -/
def w7wit : World :=
  { env := [("VCPKG_ROOT", "/v"), ("VCPKG_NUGET_USER", "u"),
            ("VCPKG_NUGET_TOKEN", "t"), ("VCPKG_PRIMARY_NUGET_TOKEN", "pt"),
            ("VCPKG_PRIMARY_NUGET_OWNER", "u")],
    isWin := false, whichMono := true,
    pathExists := fun s => s == "/v/vcpkg",
    cmdExit := fun _ => 0,
    fetchOutput := "nuget.exe\n" }

/-- Witness for C7: the theorem applied at the concrete same-owner world. -/
theorem C7_same_owner_skip_witness :
    (pyMain w7wit).term = Term.normal ∧
    Event.errLine sameFeedMsg ∈ (pyMain w7wit).trace ∧
    runCmds (pyMain w7wit).trace
      = [fetchCmd (vcpkgExePath w7wit "/v"),
         addCmd ["mono", "nuget.exe"] (nugetUrl "u") "GitHub" "u" "t",
         updateCmd ["mono", "nuget.exe"] (nugetUrl "u") "GitHub" "u" "t",
         setApiKeyCmd ["mono", "nuget.exe"] "t" (nugetUrl "u")] ∧
    outLines (pyMain w7wit).trace
      = [exportLine w7wit.isWin ("VCPKG_BINARY_SOURCES", binarySourcesTemplate)] :=
  C7_same_owner_skip w7wit "/v" "nuget.exe" "u" "t" rfl rfl rfl rfl rfl rfl
    (by decide) rfl (by decide) rfl (by decide) (by decide) rfl rfl rfl

/-- C8: when the secondary token is set (non-empty) but the secondary owner
variable is unset, the run ends in the `fail` routine with the diagnostic
naming the owner variable, exiting non-zero, and the invoked commands are
exactly the fetch plus the three primary-feed commands — no secondary
registration command is ever run. -/
theorem C8_secondary_owner_missing (w : World) (root line u t : String)
    (hr : pathOfString (envGetD w "VCPKG_ROOT" "") = root)
    (hroot : envMem w "VCPKG_ROOT" = true)
    (hexe : w.pathExists (vcpkgExePath w root) = true)
    (hwin : w.isWin = false) (hmono : w.whichMono = true)
    (hfetch : w.cmdExit (fetchCmd (vcpkgExePath w root)) = 0)
    (hline : (pySplitlines w.fetchOutput).getLast? = some line)
    (hu : envGetD w "VCPKG_NUGET_USER" "" = u) (hu0 : u ≠ "")
    (ht : envGetD w "VCPKG_NUGET_TOKEN" "" = t) (ht0 : t ≠ "")
    (htok : envGetD w "VCPKG_PRIMARY_NUGET_TOKEN" "" ≠ "")
    (hownerMem : envMem w "VCPKG_PRIMARY_NUGET_OWNER" = false)
    (hupd : w.cmdExit (updateCmd ["mono", line] (nugetUrl u) "GitHub" u t) = 0)
    (hapi : w.cmdExit (setApiKeyCmd ["mono", line] t (nugetUrl u)) = 0) :
    (pyMain w).term = Term.failExit ∧
    exitCode (pyMain w) = 1 ∧
    ownerMissingMsg ∈ errLines (pyMain w).trace ∧
    hasShellStmt (pyMain w).trace = true ∧
    runCmds (pyMain w).trace
      = [fetchCmd (vcpkgExePath w root),
         addCmd ["mono", line] (nugetUrl u) "GitHub" u t,
         updateCmd ["mono", line] (nugetUrl u) "GitHub" u t,
         setApiKeyCmd ["mono", line] t (nugetUrl u)] := by
  have hA : resolveRoot w = Except.ok ([], root) := by
    rw [← hr]
    exact resolveRoot_of_mem w hroot
  have hB := ensureVcpkgExe_of_exists w root hexe
  have hC := resolveMono_of_nonwin w hwin hmono
  have hD := fetchNuget_of_ok w (vcpkgExePath w root) ["mono"] line hfetch hline
  have hE : getCreds w = Except.ok (u, t) := by
    rw [← hu, ← ht]
    exact getCreds_of_ok w (hu ▸ hu0) (ht ▸ ht0)
  have hF := registerPrimary_of_ok w ["mono", line] u t hupd hapi
  have hG := registerSecondary_of_noOwner w ["mono", line] u htok
    (envGetD_of_not_mem w "VCPKG_PRIMARY_NUGET_OWNER" "" hownerMem)
  simp only [pyMain, hA, hB, hC, hD, hE, hF]
  refine ⟨?_, ?_, ?_, ?_, ?_⟩ <;>
    simp [hF, hG, pyFail_errLines, pyFail_hasShellStmt, pyFail_runCmds,
      exitCode, prependTrace]

/-- Concrete world for the C8 witness: secondary token set, owner absent. -/
def w8wit : World :=
  { env := [("VCPKG_ROOT", "/v"), ("VCPKG_NUGET_USER", "u"),
            ("VCPKG_NUGET_TOKEN", "t"), ("VCPKG_PRIMARY_NUGET_TOKEN", "pt")],
    isWin := false, whichMono := true,
    pathExists := fun s => s == "/v/vcpkg",
    cmdExit := fun _ => 0,
    fetchOutput := "nuget.exe\n" }

/-- Witness for C8: the theorem applied at the concrete world. -/
theorem C8_secondary_owner_missing_witness :
    (pyMain w8wit).term = Term.failExit ∧
    exitCode (pyMain w8wit) = 1 ∧
    ownerMissingMsg ∈ errLines (pyMain w8wit).trace ∧
    hasShellStmt (pyMain w8wit).trace = true ∧
    runCmds (pyMain w8wit).trace
      = [fetchCmd (vcpkgExePath w8wit "/v"),
         addCmd ["mono", "nuget.exe"] (nugetUrl "u") "GitHub" "u" "t",
         updateCmd ["mono", "nuget.exe"] (nugetUrl "u") "GitHub" "u" "t",
         setApiKeyCmd ["mono", "nuget.exe"] "t" (nugetUrl "u")] :=
  C8_secondary_owner_missing w8wit "/v" "nuget.exe" "u" "t" rfl rfl rfl rfl
    rfl rfl (by decide) rfl (by decide) rfl (by decide) (by decide) rfl rfl
    rfl

/-- C5: every missing-required-variable scenario ends in the `fail` routine
with a non-zero exit and a diagnostic that names the missing variable:
the root variable (with no fallback), the username, the token, and the
secondary owner when the secondary token is set. -/
theorem C5_missing_variable_fail (w : World) (root line u t : String)
    (hr : pathOfString (envGetD w "VCPKG_ROOT" "") = root) :
    (envMem w "VCPKG_ROOT" = false →
     envMem w "VCPKG_INSTALLATION_ROOT" = false →
       (pyMain w).term = Term.failExit ∧ exitCode (pyMain w) = 1 ∧
       rootMissingMsg ∈ errLines (pyMain w).trace ∧
       strContains rootMissingMsg "VCPKG_ROOT" = true) ∧
    (envMem w "VCPKG_ROOT" = true →
     w.pathExists (vcpkgExePath w root) = true →
     w.isWin = false → w.whichMono = true →
     w.cmdExit (fetchCmd (vcpkgExePath w root)) = 0 →
     (pySplitlines w.fetchOutput).getLast? = some line →
     envMem w "VCPKG_NUGET_USER" = false →
       (pyMain w).term = Term.failExit ∧ exitCode (pyMain w) = 1 ∧
       userMissingMsg ∈ errLines (pyMain w).trace ∧
       strContains userMissingMsg "VCPKG_NUGET_USER" = true) ∧
    (envMem w "VCPKG_ROOT" = true →
     w.pathExists (vcpkgExePath w root) = true →
     w.isWin = false → w.whichMono = true →
     w.cmdExit (fetchCmd (vcpkgExePath w root)) = 0 →
     (pySplitlines w.fetchOutput).getLast? = some line →
     envGetD w "VCPKG_NUGET_USER" "" ≠ "" →
     envMem w "VCPKG_NUGET_TOKEN" = false →
       (pyMain w).term = Term.failExit ∧ exitCode (pyMain w) = 1 ∧
       tokenMissingMsg ∈ errLines (pyMain w).trace ∧
       strContains tokenMissingMsg "VCPKG_NUGET_TOKEN" = true) ∧
    (envMem w "VCPKG_ROOT" = true →
     w.pathExists (vcpkgExePath w root) = true →
     w.isWin = false → w.whichMono = true →
     w.cmdExit (fetchCmd (vcpkgExePath w root)) = 0 →
     (pySplitlines w.fetchOutput).getLast? = some line →
     envGetD w "VCPKG_NUGET_USER" "" = u → u ≠ "" →
     envGetD w "VCPKG_NUGET_TOKEN" "" = t → t ≠ "" →
     w.cmdExit (updateCmd ["mono", line] (nugetUrl u) "GitHub" u t) = 0 →
     w.cmdExit (setApiKeyCmd ["mono", line] t (nugetUrl u)) = 0 →
     envGetD w "VCPKG_PRIMARY_NUGET_TOKEN" "" ≠ "" →
     envMem w "VCPKG_PRIMARY_NUGET_OWNER" = false →
       (pyMain w).term = Term.failExit ∧ exitCode (pyMain w) = 1 ∧
       ownerMissingMsg ∈ errLines (pyMain w).trace ∧
       strContains ownerMissingMsg "VCPKG_PRIMARY_NUGET_OWNER" = true) := by
  refine ⟨?_, ?_, ?_, ?_⟩
  · intro h1 h2
    have hA := resolveRoot_of_missing w h1 h2
    simp only [pyMain, hA]
    refine ⟨rfl, rfl, ?_, by decide⟩
    rw [pyFail_errLines]
    simp
  · intro hroot hexe hwin hmono hfetch hline huser
    have hA : resolveRoot w = Except.ok ([], root) := by
      rw [← hr]
      exact resolveRoot_of_mem w hroot
    have hB := ensureVcpkgExe_of_exists w root hexe
    have hC := resolveMono_of_nonwin w hwin hmono
    have hD := fetchNuget_of_ok w (vcpkgExePath w root) ["mono"] line hfetch hline
    have hE := getCreds_of_noUser w
      (envGetD_of_not_mem w "VCPKG_NUGET_USER" "" huser)
    simp only [pyMain, hA, hB, hC, hD, hE]
    refine ⟨rfl, rfl, ?_, by decide⟩
    simp [pyFail_errLines, prependTrace]
  · intro hroot hexe hwin hmono hfetch hline hune htok
    have hA : resolveRoot w = Except.ok ([], root) := by
      rw [← hr]
      exact resolveRoot_of_mem w hroot
    have hB := ensureVcpkgExe_of_exists w root hexe
    have hC := resolveMono_of_nonwin w hwin hmono
    have hD := fetchNuget_of_ok w (vcpkgExePath w root) ["mono"] line hfetch hline
    have hE := getCreds_of_noToken w hune
      (envGetD_of_not_mem w "VCPKG_NUGET_TOKEN" "" htok)
    simp only [pyMain, hA, hB, hC, hD, hE]
    refine ⟨rfl, rfl, ?_, by decide⟩
    simp [pyFail_errLines, prependTrace]
  · intro hroot hexe hwin hmono hfetch hline hu hu0 ht ht0 hupd hapi htok howner
    have hA : resolveRoot w = Except.ok ([], root) := by
      rw [← hr]
      exact resolveRoot_of_mem w hroot
    have hB := ensureVcpkgExe_of_exists w root hexe
    have hC := resolveMono_of_nonwin w hwin hmono
    have hD := fetchNuget_of_ok w (vcpkgExePath w root) ["mono"] line hfetch hline
    have hE : getCreds w = Except.ok (u, t) := by
      rw [← hu, ← ht]
      exact getCreds_of_ok w (hu ▸ hu0) (ht ▸ ht0)
    have hF := registerPrimary_of_ok w ["mono", line] u t hupd hapi
    have hG := registerSecondary_of_noOwner w ["mono", line] u htok
      (envGetD_of_not_mem w "VCPKG_PRIMARY_NUGET_OWNER" "" howner)
    simp only [pyMain, hA, hB, hC, hD, hE, hF]
    refine ⟨?_, ?_, ?_, by decide⟩ <;>
      simp [hF, hG, pyFail_errLines, exitCode, prependTrace]

/-- Concrete worlds for the C5 witness: root missing, username missing,
token missing, and secondary owner missing (token present). -/
def w5a : World :=
  { env := [("CI", "1")], isWin := false, whichMono := true,
    pathExists := fun _ => false, cmdExit := fun _ => 0, fetchOutput := "" }

/-- Concrete world for the C5 witness: username missing. -/
def w5b : World :=
  { env := [("VCPKG_ROOT", "/v")], isWin := false, whichMono := true,
    pathExists := fun s => s == "/v/vcpkg", cmdExit := fun _ => 0,
    fetchOutput := "nuget.exe\n" }

/-- Concrete world for the C5 witness: token missing. -/
def w5c : World :=
  { env := [("VCPKG_ROOT", "/v"), ("VCPKG_NUGET_USER", "u")],
    isWin := false, whichMono := true,
    pathExists := fun s => s == "/v/vcpkg", cmdExit := fun _ => 0,
    fetchOutput := "nuget.exe\n" }

/-- Concrete world for the C5 witness: secondary owner missing while the
secondary token is set. -/
def w5d : World :=
  { env := [("VCPKG_ROOT", "/v"), ("VCPKG_NUGET_USER", "u"),
            ("VCPKG_NUGET_TOKEN", "t"), ("VCPKG_PRIMARY_NUGET_TOKEN", "pt")],
    isWin := false, whichMono := true,
    pathExists := fun s => s == "/v/vcpkg", cmdExit := fun _ => 0,
    fetchOutput := "nuget.exe\n" }

/-- Witness for C5: the theorem applied at the four concrete
missing-variable worlds. -/
theorem C5_missing_variable_fail_witness :
    ((pyMain w5a).term = Term.failExit ∧ exitCode (pyMain w5a) = 1 ∧
      rootMissingMsg ∈ errLines (pyMain w5a).trace ∧
      strContains rootMissingMsg "VCPKG_ROOT" = true) ∧
    ((pyMain w5b).term = Term.failExit ∧ exitCode (pyMain w5b) = 1 ∧
      userMissingMsg ∈ errLines (pyMain w5b).trace ∧
      strContains userMissingMsg "VCPKG_NUGET_USER" = true) ∧
    ((pyMain w5c).term = Term.failExit ∧ exitCode (pyMain w5c) = 1 ∧
      tokenMissingMsg ∈ errLines (pyMain w5c).trace ∧
      strContains tokenMissingMsg "VCPKG_NUGET_TOKEN" = true) ∧
    ((pyMain w5d).term = Term.failExit ∧ exitCode (pyMain w5d) = 1 ∧
      ownerMissingMsg ∈ errLines (pyMain w5d).trace ∧
      strContains ownerMissingMsg "VCPKG_PRIMARY_NUGET_OWNER" = true) :=
  ⟨(C5_missing_variable_fail w5a "." "x" "x" "x" rfl).1 rfl rfl,
   (C5_missing_variable_fail w5b "/v" "nuget.exe" "x" "x" rfl).2.1 rfl rfl
     rfl rfl rfl (by decide) rfl,
   (C5_missing_variable_fail w5c "/v" "nuget.exe" "x" "x" rfl).2.2.1 rfl rfl
     rfl rfl rfl (by decide) (by decide) rfl,
   (C5_missing_variable_fail w5d "/v" "nuget.exe" "u" "t" rfl).2.2.2 rfl rfl
     rfl rfl rfl (by decide) rfl (by decide) rfl (by decide) rfl rfl
     (by decide) rfl⟩

/-- C9: on a non-Windows platform where `mono` is not resolvable, the
process always exits non-zero and the `vcpkg fetch nuget` step is never
reached: every external command in the trace is a bare single-element argv
(at most the bootstrap script), never the three-element fetch command or a
NuGet client invocation. -/
theorem C9_no_mono_no_fetch (w : World)
    (hwin : w.isWin = false) (hmono : w.whichMono = false) :
    exitCode (pyMain w) = 1 ∧
    ∀ c ∈ runCmds (pyMain w).trace, c.length = 1 := by
  have hC := resolveMono_of_noMono w hwin hmono
  rcases hA : resolveRoot w with rA | ⟨exp0, root⟩
  · obtain ⟨m, rfl⟩ := resolveRoot_error w rA hA
    simp only [pyMain, hA]
    refine ⟨rfl, ?_⟩
    rw [pyFail_runCmds]
    simp
  · rcases hB : ensureVcpkgExe w root with rB | ⟨tr1, exe⟩
    · rcases ensureVcpkgExe_error w root rB hB with ⟨m, rfl⟩ | rfl
      · simp only [pyMain, hA, hB]
        refine ⟨rfl, ?_⟩
        rw [pyFail_runCmds]
        simp
      · simp only [pyMain, hA, hB]
        refine ⟨rfl, ?_⟩
        simp
    · obtain ⟨-, htr1⟩ := ensureVcpkgExe_ok w root tr1 exe hB
      simp only [pyMain, hA, hB, hC]
      refine ⟨rfl, ?_⟩
      rcases htr1 with rfl | rfl <;> simp [pyFail_runCmds, prependTrace]

/-- Concrete world for the C9 witness: non-Windows, no mono, a valid root
with an existing vcpkg executable, every external command would succeed. -/
def w9wit : World :=
  { env := [("VCPKG_ROOT", "/v"), ("VCPKG_NUGET_USER", "u"),
            ("VCPKG_NUGET_TOKEN", "t")],
    isWin := false, whichMono := false,
    pathExists := fun s => s == "/v/vcpkg", cmdExit := fun _ => 0,
    fetchOutput := "nuget.exe\n" }

/-- Witness for C9: the theorem applied at the concrete world. -/
theorem C9_no_mono_no_fetch_witness :
    exitCode (pyMain w9wit) = 1 ∧
    ∀ c ∈ runCmds (pyMain w9wit).trace, c.length = 1 :=
  C9_no_mono_no_fetch w9wit rfl rfl

/-- C10: the extraction `splitlines()[-1]` of the fetch output is
unguarded: if `vcpkg fetch nuget` succeeds with empty output, the run dies
of an uncaught `IndexError` that bypasses the failure routine (no stdout
line, no stderr line, no shell statement); when the output has at least one
line the indexing is total and the fetch stage succeeds. -/
theorem C10_empty_fetch_output_index_error (w : World) (root : String)
    (hr : pathOfString (envGetD w "VCPKG_ROOT" "") = root)
    (hroot : envMem w "VCPKG_ROOT" = true)
    (hexe : w.pathExists (vcpkgExePath w root) = true)
    (hwin : w.isWin = false) (hmono : w.whichMono = true)
    (hfetch : w.cmdExit (fetchCmd (vcpkgExePath w root)) = 0) :
    (pySplitlines w.fetchOutput = [] →
       (pyMain w).term = Term.uncaught "IndexError" ∧
       exitCode (pyMain w) = 1 ∧
       outLines (pyMain w).trace = [] ∧
       errLines (pyMain w).trace = [] ∧
       hasShellStmt (pyMain w).trace = false) ∧
    (pySplitlines w.fetchOutput ≠ [] →
       ∃ line, fetchNuget w (vcpkgExePath w root) ["mono"]
         = Except.ok ([Event.runCmd (fetchCmd (vcpkgExePath w root))],
                      ["mono", line])) := by
  have hA : resolveRoot w = Except.ok ([], root) := by
    rw [← hr]
    exact resolveRoot_of_mem w hroot
  have hB := ensureVcpkgExe_of_exists w root hexe
  have hC := resolveMono_of_nonwin w hwin hmono
  constructor
  · intro hempty
    have hD := fetchNuget_of_emptyOutput w (vcpkgExePath w root) ["mono"]
      hfetch hempty
    simp only [pyMain, hA, hB, hC, hD]
    exact ⟨rfl, rfl, by simp [prependTrace], by simp [prependTrace],
      by simp [prependTrace]⟩
  · intro hne
    obtain ⟨line, hline⟩ :=
      Option.isSome_iff_exists.mp (List.getLast?_isSome.mpr hne)
    refine ⟨line, ?_⟩
    simpa using fetchNuget_of_ok w (vcpkgExePath w root) ["mono"] line
      hfetch hline

/-- Concrete world for the C10 witness: the fetch command succeeds but
prints nothing. -/
def w10wit : World :=
  { env := [("VCPKG_ROOT", "/v"), ("VCPKG_NUGET_USER", "u"),
            ("VCPKG_NUGET_TOKEN", "t")],
    isWin := false, whichMono := true,
    pathExists := fun s => s == "/v/vcpkg", cmdExit := fun _ => 0,
    fetchOutput := "" }

/-- Witness for C10: the theorem applied at the concrete world with empty
fetch output (first conjunct) and at one with a single output line (second
conjunct). -/
theorem C10_empty_fetch_output_index_error_witness :
    ((pyMain w10wit).term = Term.uncaught "IndexError" ∧
      exitCode (pyMain w10wit) = 1 ∧
      outLines (pyMain w10wit).trace = [] ∧
      errLines (pyMain w10wit).trace = [] ∧
      hasShellStmt (pyMain w10wit).trace = false) ∧
    (∃ line, fetchNuget w3ce (vcpkgExePath w3ce "/v") ["mono"]
      = Except.ok ([Event.runCmd (fetchCmd (vcpkgExePath w3ce "/v"))],
                   ["mono", line])) :=
  ⟨(C10_empty_fetch_output_index_error w10wit "/v" rfl rfl rfl rfl rfl
      rfl).1 rfl,
   (C10_empty_fetch_output_index_error w3ce "/v" rfl rfl rfl rfl rfl
      rfl).2 (by decide)⟩

end VcpkgCaching
